import Mathlib

/-!
Verification of the chess position data model in `chess_models.py`:
`Position`, `Piece`, `PieceMove` and `Chessboard`, with their derived
operations (algebraic notation, symbol rendering, piece lookup, initial
position construction and textual display).  Each Python class is embedded
as a Lean structure; pydantic field validation is embedded as an
`Option`/`Except` returning smart constructor; Python list indexing that can
raise is embedded as `Option`-valued lookup.
-/

/-- The two piece colors (`Literal['white', 'black']`). -/
inductive Color where
  | white
  | black
deriving DecidableEq, Repr

/-- The six piece kinds (`Literal['pawn', 'rook', 'knight', 'bishop', 'queen', 'king']`). -/
inductive PieceType where
  | pawn
  | rook
  | knight
  | bishop
  | queen
  | king
deriving DecidableEq, Repr

/-- `Position`: a coordinate on the chessboard.  The fields hold the
already-validated values (`0 ≤ row ≤ 7`, `0 ≤ col ≤ 7` is checked at
construction by pydantic, see `Position.mk?`). -/
structure Position where
  row : Nat
  col : Nat
deriving DecidableEq, Repr

/-- Pydantic construction of `Position`: the `Field(..., ge=0, le=7)`
constraints on both coordinates are checked before the value exists; a
violation raises, so no `Position` is produced (`none`). -/
def Position.mk? (row col : Int) : Option Position :=
  if 0 ≤ row ∧ row ≤ 7 ∧ 0 ≤ col ∧ col ≤ 7 then
    some ⟨row.toNat, col.toNat⟩
  else
    none

/-- `Position.to_tuple`. -/
def Position.to_tuple (p : Position) : Nat × Nat :=
  (p.row, p.col)

/-- `Position.to_algebraic`: `chr(self.col + ord('a'))` followed by `8 - self.row`. -/
def Position.to_algebraic (p : Position) : String :=
  (Char.ofNat (p.col + 97)).toString ++ toString (8 - p.row)

/-- `Piece`: a color and a kind. -/
structure Piece where
  color : Color
  type : PieceType
deriving DecidableEq, Repr

/-- `Piece.__str__`: look `self.type` up in `piece_map`, then lowercase the
symbol when the color is white, keep it uppercase otherwise. -/
def Piece.str (p : Piece) : String :=
  let symbol : Char :=
    match p.type with
    | .pawn => 'P'
    | .rook => 'R'
    | .knight => 'N'
    | .bishop => 'B'
    | .queen => 'Q'
    | .king => 'K'
  if p.color = Color.white then symbol.toLower.toString else symbol.toString

/-- `PieceMove`: a piece together with a source and a destination square. -/
structure PieceMove where
  piece : Piece
  from_position : Position
  to_position : Position
deriving DecidableEq, Repr

/-- Python's `str.upper()` on an ASCII string: uppercase every character. -/
def string_upper (s : String) : String :=
  String.mk (s.data.map Char.toUpper)

/-- `PieceMove.__str__`: `str(self.piece).upper()`, replaced by the empty
string for pawns, then the two squares in algebraic notation. -/
def PieceMove.str (m : PieceMove) : String :=
  let piece_str := string_upper m.piece.str
  let piece_str := if m.piece.type = PieceType.pawn then "" else piece_str
  piece_str ++ m.from_position.to_algebraic ++ m.to_position.to_algebraic

/-- `Chessboard`: a grid of optional pieces.  The type of the field matches
the pydantic annotation `List[List[Optional[Piece]]]`; nothing in the type
forces the grid to be 8×8. -/
structure Chessboard where
  board : List (List (Option Piece))
deriving DecidableEq, Repr

/-- The body of `Chessboard.validate_board_dimensions`: raise
`ValueError('Chessboard must be 8x8')` when the outer length is not 8 or
some inner row length is not 8, return the grid unchanged otherwise. -/
def Chessboard.validate_board_dimensions (v : List (List (Option Piece))) :
    Except String (List (List (Option Piece))) :=
  if v.length != 8 || v.any (fun row => row.length != 8) then
    Except.error "Chessboard must be 8x8"
  else
    Except.ok v

/-- Construction of a `Chessboard` from a grid, as the code performs it:
`Chessboard(board=grid)`.  In the source, `validate_board_dimensions` is a
plain method without a pydantic `@validator` decorator, so pydantic never
invokes it: construction only checks the field's type annotation and
accepts a grid of any dimensions. -/
def Chessboard.from_grid (grid : List (List (Option Piece))) : Chessboard :=
  ⟨grid⟩

/-- `Chessboard.get_piece`: `self.board[position.row][position.col]`.
Python list indexing raises `IndexError` out of bounds, embedded here as
the outer `Option` being `none`; the inner `Option` is the cell content. -/
def Chessboard.get_piece (b : Chessboard) (p : Position) : Option (Option Piece) :=
  (b.board.get? p.row).bind fun r => r.get? p.col

/-- One display cell: `'.'` for `None`, `str(piece)` otherwise. -/
def cell_str (c : Option Piece) : String :=
  match c with
  | none => "."
  | some p => p.str

/-- `' '.join(display_row)` for one board row. -/
def row_str (row : List (Option Piece)) : String :=
  String.intercalate " " (row.map cell_str)

/-- The list of lines built by `Chessboard.display`: header, border, then
one line per element of `reversed(self.board)` (index `i` labelled `8-i`),
then border and footer. -/
def Chessboard.displayRows (b : Chessboard) : List String :=
  ["  A B C D E F G H", " +-----------------+"] ++
    (b.board.reverse.enum.map fun ir =>
      toString (8 - ir.1) ++ " | " ++ row_str ir.2 ++ " |") ++
    [" +-----------------+", "  A B C D E F G H"]

/-- `Chessboard.display`: the lines joined with newlines. -/
def Chessboard.display (b : Chessboard) : String :=
  String.intercalate "\n" b.displayRows

/-- `Chessboard.create_initial_board`: start from an 8×8 grid of `None`,
then assign rows 0, 1, 6 and 7. -/
def Chessboard.create_initial_board : Chessboard :=
  let board := List.replicate 8 (List.replicate 8 (none : Option Piece))
  let board := board.set 0
    [some ⟨Color.black, PieceType.rook⟩,
     some ⟨Color.black, PieceType.knight⟩,
     some ⟨Color.black, PieceType.bishop⟩,
     some ⟨Color.black, PieceType.queen⟩,
     some ⟨Color.black, PieceType.king⟩,
     some ⟨Color.black, PieceType.bishop⟩,
     some ⟨Color.black, PieceType.knight⟩,
     some ⟨Color.black, PieceType.rook⟩]
  let board := board.set 1 (List.replicate 8 (some ⟨Color.black, PieceType.pawn⟩))
  let board := board.set 6 (List.replicate 8 (some ⟨Color.white, PieceType.pawn⟩))
  let board := board.set 7
    [some ⟨Color.white, PieceType.rook⟩,
     some ⟨Color.white, PieceType.knight⟩,
     some ⟨Color.white, PieceType.bishop⟩,
     some ⟨Color.white, PieceType.queen⟩,
     some ⟨Color.white, PieceType.king⟩,
     some ⟨Color.white, PieceType.bishop⟩,
     some ⟨Color.white, PieceType.knight⟩,
     some ⟨Color.white, PieceType.rook⟩]
  ⟨board⟩

/-! ## Spec-side tables and enumerations -/

/-- The spec's kind→letter table: pawn=P, rook=R, knight=N, bishop=B,
queen=Q, king=K. -/
def piece_letter (t : PieceType) : Char :=
  match t with
  | .pawn => 'P'
  | .rook => 'R'
  | .knight => 'N'
  | .bishop => 'B'
  | .queen => 'Q'
  | .king => 'K'

/-- The spec's column→letter table: column 0→'a' … 7→'h'. -/
def column_letter (c : Nat) : Char :=
  match c with
  | 0 => 'a'
  | 1 => 'b'
  | 2 => 'c'
  | 3 => 'd'
  | 4 => 'e'
  | 5 => 'f'
  | 6 => 'g'
  | 7 => 'h'
  | _ => ' '

/-- The 64 coordinate pairs with both components in `[0,7]`. -/
def all_coords : List (Nat × Nat) :=
  (List.range 8).flatMap fun r => (List.range 8).map fun c => (r, c)

/-- The algebraic strings of the 64 coordinate pairs. -/
def all_algebraic : List String :=
  all_coords.map fun rc => (Position.mk rc.1 rc.2).to_algebraic

/-- Whether a string matches the pattern `[a-h][1-8]`. -/
def matches_coordinate_pattern (s : String) : Bool :=
  match s.data with
  | [c1, c2] => ('a' ≤ c1 && c1 ≤ 'h') && ('1' ≤ c2 && c2 ≤ '8')
  | _ => false

/-- The 64 strings matching `[a-h][1-8]`. -/
def all_pattern_strings : List String :=
  (List.range 8).flatMap fun ci =>
    (List.range 8).map fun ri => (Char.ofNat (97 + ci)).toString ++ toString (ri + 1)

/-- All 12 (color, kind) combinations. -/
def all_pieces : List Piece :=
  [Color.white, Color.black].flatMap fun c =>
    [PieceType.pawn, PieceType.rook, PieceType.knight,
     PieceType.bishop, PieceType.queen, PieceType.king].map fun t => ⟨c, t⟩

/-- A grid with 7 rows of 8 empty cells: wrong outer dimension. -/
def seven_row_grid : List (List (Option Piece)) :=
  List.replicate 7 (List.replicate 8 (none : Option Piece))

/-- The standard starting grid as the spec describes it: row 0 the black
back rank rook, knight, bishop, queen, king, bishop, knight, rook; row 1
black pawns; rows 2–5 empty; row 6 white pawns; row 7 the white back rank
in the same kind order. -/
def initial_grid_spec : List (List (Option Piece)) :=
  [[some ⟨Color.black, PieceType.rook⟩, some ⟨Color.black, PieceType.knight⟩,
    some ⟨Color.black, PieceType.bishop⟩, some ⟨Color.black, PieceType.queen⟩,
    some ⟨Color.black, PieceType.king⟩, some ⟨Color.black, PieceType.bishop⟩,
    some ⟨Color.black, PieceType.knight⟩, some ⟨Color.black, PieceType.rook⟩],
   List.replicate 8 (some ⟨Color.black, PieceType.pawn⟩),
   List.replicate 8 none,
   List.replicate 8 none,
   List.replicate 8 none,
   List.replicate 8 none,
   List.replicate 8 (some ⟨Color.white, PieceType.pawn⟩),
   [some ⟨Color.white, PieceType.rook⟩, some ⟨Color.white, PieceType.knight⟩,
    some ⟨Color.white, PieceType.bishop⟩, some ⟨Color.white, PieceType.queen⟩,
    some ⟨Color.white, PieceType.king⟩, some ⟨Color.white, PieceType.bishop⟩,
    some ⟨Color.white, PieceType.knight⟩, some ⟨Color.white, PieceType.rook⟩]]

/-! ## Claims -/

/-- C1: the claim says constructing a `Chessboard` from a grid of bad
dimensions fails with a `DimensionError` before any other use of the grid.
The source defines `validate_board_dimensions` with exactly that check, but
never installs it as a pydantic validator, so construction from a 7-row
grid succeeds and holds the bad grid, while the (never-invoked) check would
have rejected it. -/
theorem C1_constructor_skips_dimension_check :
    (Chessboard.from_grid seven_row_grid).board = seven_row_grid ∧
    Chessboard.validate_board_dimensions seven_row_grid =
      Except.error "Chessboard must be 8x8" :=
  ⟨rfl, rfl⟩

/-- C2: the claim says body line `i` of the rendered diagram displays grid
row `i` (grid row 0 first) with rank label `8-i`.  The code iterates
`reversed(self.board)`, so on the initial board the first body line (index
2 of the line list) shows grid row 7 (the white back rank, lowercase
symbols) under label 8, not grid row 0, whose rendering is
`R N B Q K B N R`. -/
theorem C2_display_prints_reversed_rows :
    Chessboard.create_initial_board.displayRows.get? 2 =
      some "8 | r n b q k b n r |" ∧
    row_str ((Chessboard.create_initial_board.board.get? 0).getD []) =
      "R N B Q K B N R" ∧
    Chessboard.create_initial_board.displayRows.get? 2 ≠
      some ("8 | " ++
        row_str ((Chessboard.create_initial_board.board.get? 0).getD []) ++ " |") := by
  refine ⟨rfl, rfl, by decide⟩

/-- C3: constructing a `Position` fails (produces no value) exactly when a
coordinate is outside `[0,7]`; in particular `(8,0)` and `(0,-1)` are
rejected. -/
theorem C3_square_range_validation :
    (∀ r c : Int,
      (Position.mk? r c).isSome = true ↔ (0 ≤ r ∧ r ≤ 7 ∧ 0 ≤ c ∧ c ≤ 7)) ∧
    Position.mk? 8 0 = none ∧ Position.mk? 0 (-1) = none := by
  refine ⟨fun r c => ?_, by decide, by decide⟩
  unfold Position.mk?
  split <;> simp_all

/-- C4: for every coordinate pair in `[0,7]²`, `to_algebraic` is the column
letter (`0→'a' … 7→'h'`) followed by the digit `8 - row`; in particular
`(0,0)↦"a8"`, `(7,7)↦"h1"`, `(7,0)↦"a1"`. -/
theorem C4_to_algebraic_mapping :
    (∀ r c : Fin 8, (Position.mk r.val c.val).to_algebraic =
      (column_letter c.val).toString ++ toString (8 - r.val)) ∧
    (Position.mk 0 0).to_algebraic = "a8" ∧
    (Position.mk 7 7).to_algebraic = "h1" ∧
    (Position.mk 7 0).to_algebraic = "a1" := by
  decide

/-- C5: over the 64 coordinate pairs, `to_algebraic` produces pairwise
distinct strings, each matching `[a-h][1-8]`, and the 64 outputs are a
permutation of the 64 strings of that pattern: the mapping is a
bijection. -/
theorem C5_to_algebraic_bijection :
    all_algebraic.Nodup ∧
    all_algebraic.all matches_coordinate_pattern = true ∧
    all_algebraic.Perm all_pattern_strings := by
  refine ⟨by decide, by decide, by decide⟩

/-- C6: `create_initial_board` produces exactly the standard starting grid
(black back rank on row 0, black pawns on row 1, rows 2–5 empty, white
pawns on row 6, white back rank on row 7); looking up `(0,4)` gives the
black king, `(7,4)` the white king, `(3,3)` an empty cell. -/
theorem C6_initial_position_standard :
    Chessboard.create_initial_board.board = initial_grid_spec ∧
    Chessboard.create_initial_board.get_piece ⟨0, 4⟩ =
      some (some ⟨Color.black, PieceType.king⟩) ∧
    Chessboard.create_initial_board.get_piece ⟨7, 4⟩ =
      some (some ⟨Color.white, PieceType.king⟩) ∧
    Chessboard.create_initial_board.get_piece ⟨3, 3⟩ = some none := by
  refine ⟨rfl, rfl, rfl, rfl⟩

/-- C7: every move renders as the uppercase piece letter — omitted for
pawns — followed by the source and then the destination square in
algebraic notation; in particular the white pawn move `(6,4)→(4,4)` is
`"e2e4"` and the black knight move `(0,1)→(2,2)` is `"Nb8c6"`. -/
theorem C7_move_notation :
    (∀ m : PieceMove, m.str =
      (if m.piece.type = PieceType.pawn then ""
       else (piece_letter m.piece.type).toString) ++
      m.from_position.to_algebraic ++ m.to_position.to_algebraic) ∧
    (PieceMove.mk ⟨Color.white, PieceType.pawn⟩ ⟨6, 4⟩ ⟨4, 4⟩).str = "e2e4" ∧
    (PieceMove.mk ⟨Color.black, PieceType.knight⟩ ⟨0, 1⟩ ⟨2, 2⟩).str = "Nb8c6" := by
  refine ⟨fun m => ?_, by decide, by decide⟩
  obtain ⟨⟨c, t⟩, f, g⟩ := m
  cases c <;> cases t <;> rfl

/-- C8: every piece's symbol is the kind's letter, kept uppercase for black
and lowered for white; in particular the white pawn is `"p"` and the black
queen `"Q"`. -/
theorem C8_piece_symbol :
    (∀ p : Piece, p.str =
      if p.color = Color.black then (piece_letter p.type).toString
      else (piece_letter p.type).toLower.toString) ∧
    (Piece.mk Color.white PieceType.pawn).str = "p" ∧
    (Piece.mk Color.black PieceType.queen).str = "Q" := by
  refine ⟨fun p => ?_, rfl, rfl⟩
  obtain ⟨c, t⟩ := p
  cases c <;> cases t <;> rfl

/-- C9: given a validly constructed board (exactly 8×8) and square (both
coordinates in `[0,7]`), `get_piece`'s two list lookups stay in bounds
(the lookup succeeds), and `display` always yields its full 12-line
diagram — no operation after construction can fail. -/
theorem C9_operations_total :
    ∀ (b : Chessboard) (p : Position),
      b.board.length = 8 → (∀ row ∈ b.board, row.length = 8) →
      p.row ≤ 7 → p.col ≤ 7 →
      (b.get_piece p).isSome = true ∧ b.displayRows.length = 12 := by
  intro b p hlen hrows hr hc
  have h1 : p.row < b.board.length := by omega
  constructor
  · unfold Chessboard.get_piece
    rw [List.get?_eq_get h1]
    have hmem : b.board.get ⟨p.row, h1⟩ ∈ b.board := List.get_mem b.board p.row h1
    have h2 : p.col < (b.board.get ⟨p.row, h1⟩).length := by
      rw [hrows _ hmem]; omega
    simp only [Option.some_bind]
    rw [List.get?_eq_get h2]
    rfl
  · unfold Chessboard.displayRows
    simp [List.length_append, List.length_map, List.enum_length,
      List.length_reverse, hlen]

/-- C9 witness: the theorem applied to the initial board and square
`(0,0)`. -/
theorem C9_operations_total_witness :
    (Chessboard.create_initial_board.get_piece ⟨0, 0⟩).isSome = true ∧
    Chessboard.create_initial_board.displayRows.length = 12 :=
  C9_operations_total Chessboard.create_initial_board ⟨0, 0⟩
    (by decide) (by decide) (by decide) (by decide)

/-- C10: the 12 (color, kind) combinations are exactly the inhabitants of
`Piece`, and their 12 symbols are pairwise distinct, so the symbol
determines the piece: board rendering is unambiguous. -/
theorem C10_symbol_injective :
    (∀ p : Piece, p ∈ all_pieces) ∧ (all_pieces.map Piece.str).Nodup := by
  refine ⟨fun p => ?_, by decide⟩
  obtain ⟨c, t⟩ := p
  cases c <;> cases t <;> decide
